import Mathlib

/-!
Shallow embedding of the rule-based core of the Scaler AI funnel demo
(`scalar.py`): the profile extractor, nugget generator, solution scorer,
discount mapper and email generator, together with theorems settling the
specification claims about them.

Modelling conventions:
* Python strings are Lean `String`s; character-level work is done on
  `String.data : List Char`.
* Python floats are modelled by exact rationals `ℚ`; `round(x, 1)` is
  modelled by round-half-to-even at one decimal (`round1`), matching
  Python's banker's rounding.
* The single `random.uniform` call made by `simulate_scoring` is modelled
  by an explicit parameter `draw : ℚ`, constrained to the corresponding
  interval in each theorem.
-/

attribute [local semireducible] Rat.add Rat.mul Rat.sub Rat.inv Rat.ofScientific

/-- Python whitespace characters, as recognised by `str.strip` / `str.split`
(restricted to the ASCII range, which covers all inputs of interest). -/
def isPySpace (c : Char) : Bool :=
  c = ' ' || c = '\t' || c = '\n' || c = '\r' || c = '\x0b' || c = '\x0c'

/-- `leadsWith needle hay` holds when `needle` is an initial segment of `hay`. -/
def leadsWith : List Char → List Char → Bool
  | [], _ => true
  | _ :: _, [] => false
  | a :: as, b :: bs => a = b && leadsWith as bs

/-- Python's substring test `needle in hay`. -/
def hasSub (hay needle : List Char) : Bool :=
  match hay with
  | [] => needle.isEmpty
  | _ :: t => leadsWith needle hay || hasSub t needle

/-- Python's `str.strip()`: drop leading and trailing whitespace. -/
def pyStrip (l : List Char) : List Char :=
  ((l.dropWhile isPySpace).reverse.dropWhile isPySpace).reverse

/-- Helper for `pyWords`: accumulates the current word (reversed). -/
def pyWordsAux : List Char → List Char → List (List Char)
  | [], acc => if acc = [] then [] else [acc.reverse]
  | c :: rest, acc =>
    if isPySpace c then
      if acc = [] then pyWordsAux rest [] else acc.reverse :: pyWordsAux rest []
    else pyWordsAux rest (c :: acc)

/-- Python's `str.split()` with no argument: split on whitespace runs,
discarding empty pieces. -/
def pyWords (l : List Char) : List (List Char) := pyWordsAux l []

/-- Python's `str.lower()` applied characterwise (ASCII range). -/
def pyLower (s : String) : List Char := s.data.map Char.toLower

/-- Lexicographic strict order on character lists (Python `str` `<`). -/
def lexLt : List Char → List Char → Bool
  | [], [] => false
  | [], _ :: _ => true
  | _ :: _, [] => false
  | a :: as, b :: bs => a < b || (a = b && lexLt as bs)

/-- Strict order on strings, as Python compares strings. -/
def strLt (a b : String) : Bool := lexLt a.data b.data

/-- Insert into a lexicographically sorted list of strings. -/
def insertStr (x : String) : List String → List String
  | [] => [x]
  | y :: ys => if strLt y x then y :: insertStr x ys else x :: y :: ys

/-- Python's `sorted` on a list of strings (insertion sort). -/
def sortStrs (l : List String) : List String := l.foldr insertStr []

/-- The Software Engineer keyword list of `extract_profile_from_resume`. -/
def kwSoftwareEngineer : List String :=
  ["python", "java", "react", "javascript", "backend", "frontend", "api",
   "docker", "kubernetes"]

/-- The Data Analyst keyword list. -/
def kwDataAnalyst : List String :=
  ["excel", "tableau", "power bi", "sql", "pandas", "visualization",
   "dashboard", "reporting", "rfm", "eda"]

/-- The Data Scientist keyword list. -/
def kwDataScientist : List String :=
  ["machine learning", "deep learning", "tensorflow", "pytorch",
   "scikit-learn", "ml", "ai", "pandas", "numpy"]

/-- The Product Manager keyword list. -/
def kwProductManager : List String :=
  ["product management", "roadmap", "stakeholder", "user research", "kpi",
   "metrics"]

/-- The DevOps Engineer keyword list. -/
def kwDevOpsEngineer : List String :=
  ["aws", "azure", "ci/cd", "terraform", "jenkins", "infrastructure"]

/-- The role → keyword table of `extract_profile_from_resume`, in source
declaration order. -/
def keywords : List (String × List String) :=
  [("Software Engineer", kwSoftwareEngineer),
   ("Data Analyst", kwDataAnalyst),
   ("Data Scientist", kwDataScientist),
   ("Product Manager", kwProductManager),
   ("DevOps Engineer", kwDevOpsEngineer)]

/-- Number of keywords of `kws` occurring as substrings of `text`. -/
def countKws (text : List Char) (kws : List String) : Nat :=
  (kws.filter (fun kw => hasSub text kw.data)).length

/-- The per-role match counts, in declaration order (`scores` in the source). -/
def scoresList (text : List Char) : List (String × Nat) :=
  keywords.map (fun p => (p.1, countKws text p.2))

/-- Python's `max(scores, key=scores.get)` over the remaining items, keeping
the current best on ties (first-wins). -/
def pickBestAux : (String × Nat) → List (String × Nat) → (String × Nat)
  | b, [] => b
  | b, x :: xs => pickBestAux (if b.2 < x.2 then x else b) xs

/-- The (role, count) pair selected by `max(scores, key=scores.get)`.
`scoresList` always has five entries, so the `[]` branch is unreachable. -/
def best_role_pair (text : List Char) : String × Nat :=
  match scoresList text with
  | [] => ("Data Analyst", 0)
  | x :: xs => pickBestAux x xs

/-- The profile dictionary returned by `extract_profile_from_resume`.
`name` is absent from the dictionary the extractor builds (the UI adds it
later), so it is an `Option`. -/
structure Profile where
  role : String
  experience_years : Nat
  skills : List String
  seniority : String
  raw_text_preview : String
  name : Option String
deriving DecidableEq

/-- `extract_profile_from_resume`: keyword-based profile extraction.
Empty input returns the no-profile sentinel `none`. -/
def extract_profile_from_resume (resume_text : String) : Option Profile :=
  if resume_text = "" then none
  else
    let text := pyLower resume_text
    let bp := best_role_pair text
    let best_role := if bp.2 = 0 then "Data Analyst" else bp.1
    let exp : Nat :=
      if hasSub text "senior".data || hasSub text "5+".data ||
         hasSub text "5 years".data then 6
      else if hasSub text "lead".data || hasSub text "3+".data ||
              hasSub text "3 years".data then 4
      else if hasSub text "junior".data || hasSub text "1+".data ||
              hasSub text "1 year".data then 2
      else 1
    let seniority :=
      if 5 ≤ exp then "Senior" else if 3 ≤ exp then "Mid-level" else "Junior"
    some
      { role := best_role
        experience_years := exp
        skills :=
          sortStrs (((keywords.map Prod.snd).flatten.filter
            (fun kw => hasSub text kw.data)).dedup)
        seniority := seniority
        raw_text_preview :=
          String.mk ((resume_text.data.take 100).map
            (fun c => if c = '\n' then ' ' else c)) ++
          (if 100 < resume_text.data.length then "..." else "")
        name := none }

/-- Round-half-to-even to the nearest integer, as Python's builtin `round`
behaves on exact values. -/
def rhe (x : ℚ) : ℤ :=
  if x - ⌊x⌋ < 1/2 then ⌊x⌋
  else if 1/2 < x - ⌊x⌋ then ⌊x⌋ + 1
  else if ⌊x⌋ % 2 = 0 then ⌊x⌋ else ⌊x⌋ + 1

/-- Python's `round(x, 1)`: round-half-to-even at one decimal place. -/
def round1 (x : ℚ) : ℚ := (rhe (10 * x) : ℚ) / 10

/-- The keyword → boost table of `simulate_scoring`, in source order. -/
def kwBoosts : List (String × ℚ) :=
  [("feature", 0.5), ("validation", 0.7), ("cross", 0.4), ("ensemble", 0.6),
   ("hyperparameter", 0.6)]

/-- `simulate_scoring`: heuristic solution scoring.  The one `random.uniform`
call per invocation is the explicit parameter `draw`: the uniform [4.0, 6.5]
result on blank input, and the uniform [-0.5, 0.8] noise otherwise. -/
def simulate_scoring (solution_text : String) (draw : ℚ) : ℚ :=
  if solution_text = "" || pyStrip solution_text.data = [] then draw
  else
    let text := pyLower solution_text
    let base : ℚ := min 10 (3 + ((pyWords text).length : ℚ) * 0.03)
    let score := kwBoosts.foldl
      (fun s p => if hasSub text p.1.data then s + p.2 else s) base
    round1 (max 0 (min 10 (score + draw)))

/-- The discount-tier dictionary returned by `discount_by_score`. -/
structure DiscountTier where
  tier : String
  savings : String
deriving DecidableEq

/-- The 40%-off tier. -/
def tier40 : DiscountTier := { tier := "🥇 40% OFF", savings := "40%" }

/-- The 30%-off tier. -/
def tier30 : DiscountTier := { tier := "🥈 30% OFF", savings := "30%" }

/-- The 20%-off tier. -/
def tier20 : DiscountTier := { tier := "🥉 20% OFF", savings := "20%" }

/-- The 15%-off participant tier. -/
def tier15 : DiscountTier := { tier := "🎯 15% OFF (Participant)", savings := "15%" }

/-- `discount_by_score`: threshold lookup from score to discount tier. -/
def discount_by_score (score : ℚ) : DiscountTier :=
  if 9 ≤ score then tier40
  else if 8 ≤ score then tier30
  else if 7 ≤ score then tier20
  else tier15

/-- The nugget dictionary built by `generate_personalized_nuggets`. -/
structure Nuggets where
  headline : String
  nugget_1 : String
  nugget_2 : String
  cta : String
  extra_tip : Option String
deriving DecidableEq

/-- `generate_personalized_nuggets`: pure templating over a profile.  A
falsy (`None`) profile yields the empty dictionary, modelled as `none`. -/
def generate_personalized_nuggets (profile : Option Profile)
    (masterclass_topic : String) : Option Nuggets :=
  match profile with
  | none => none
  | some p =>
    let role := p.role
    let seniority := p.seniority
    let skills := p.skills.take 5
    let base : Nuggets :=
      { headline := role ++ " • " ++ seniority ++ " • " ++
          (if skills.isEmpty then "Skills not listed"
           else String.intercalate ", " skills)
        nugget_1 := "As a " ++ role ++ ", mastering " ++ masterclass_topic ++
          " can help you build production-ready analytics & models faster."
        nugget_2 := "Focus on project-based learning — employers value delivered impact (dashboards, pipelines, ML features)."
        cta := "Join the 30-min challenge and earn up to 40% off our AI course — limited spots!"
        extra_tip := none }
    some (if role = "Data Analyst" then
      { base with
          nugget_1 := "AI helps Data Analysts automate repetitive analysis and build predictive models — learn how in the masterclass."
          extra_tip := some "Try combining SQL + Python + visualization to demonstrate quick wins to stakeholders." }
    else base)

/-- The subject/content pair built by `generate_personalized_email`. -/
structure EmailTemplate where
  subject : String
  content : String
deriving DecidableEq

/-- The template produced for `email_type = "2 Hours Post-Exit"`. -/
def twoHoursPostExitTemplate (p : Profile) (masterclass_topic : String) :
    EmailTemplate :=
  let name := p.name.getD "[Name]"
  { subject := "That moment from today\x27s " ++ masterclass_topic ++
      " — don\x27t let it fade"
    content := "Hi " ++ name ++ ",\n\nI noticed you attended the " ++
      masterclass_topic ++ " masterclass. As a " ++ p.seniority ++ " " ++
      p.role ++
      ", now is the perfect time to convert that learning spark into a measurable skill.\n\nQuick wins for you:\n• Build a dashboard to demonstrate one business metric in 1 week.\n• Use a small ML model to predict the next 30-day trend for a key KPI.\n\nYour exclusive 40% discount is still available for a short time.\n\n[CLAIM 40% OFF]\n\nBest,\nThe Scaler AI Team\n" }

/-- The template produced for `email_type = "24 Hours Later"`. -/
def twentyFourHoursLaterTemplate (p : Profile) (_masterclass_topic : String) :
    EmailTemplate :=
  let name := p.name.getD "[Name]"
  { subject := "Your peers are already advancing — a reminder from Scaler AI"
    content := "Hi " ++ name ++ ",\n\nYesterday\x27s masterclass created momentum. Many " ++
      p.role.toLower ++
      "s like you have already started the challenge and secured priority access.\n\nWe saved a spot with a discount for " ++
      p.seniority ++ " " ++ p.role ++
      "s who take action.\n\n[SECURE YOUR SPOT]\n\n— Scaler AI" }

/-- The catch-all final-reminder template. -/
def finalReminderTemplate (p : Profile) (_masterclass_topic : String) :
    EmailTemplate :=
  let name := p.name.getD "[Name]"
  { subject := "A note from your future self — keep building"
    content := "Hi " ++ name ++
      ",\n\nTwo weeks from now you\x27ll be glad you acted. As a " ++ p.role ++
      ", this program helps you move from analysis to impact.\n\n[ENROLL NOW — FINAL REMINDER]\n\n— The Scaler Team" }

/-- `generate_personalized_email`: selects one of three fixed templates by
exact match on `email_type`, falling through to the final reminder. -/
def generate_personalized_email (profile : Profile)
    (masterclass_topic : String) (email_type : String) : EmailTemplate :=
  if email_type = "2 Hours Post-Exit" then
    twoHoursPostExitTemplate profile masterclass_topic
  else if email_type = "24 Hours Later" then
    twentyFourHoursLaterTemplate profile masterclass_topic
  else finalReminderTemplate profile masterclass_topic

/-- Characters of an initial segment are characters of the whole. -/
theorem leadsWith_mem {needle hay : List Char} (h : leadsWith needle hay = true) :
    ∀ c ∈ needle, c ∈ hay := by
  induction needle generalizing hay with
  | nil => intro c hc; cases hc
  | cons a as ih =>
    cases hay with
    | nil => simp [leadsWith] at h
    | cons b bs =>
      simp only [leadsWith, Bool.and_eq_true, decide_eq_true_eq] at h
      intro c hc
      rcases List.mem_cons.mp hc with rfl | hc
      · exact h.1 ▸ List.mem_cons_self _ _
      · exact List.mem_cons_of_mem _ (ih h.2 c hc)

/-- Characters of a substring are characters of the haystack. -/
theorem hasSub_mem {hay needle : List Char} (h : hasSub hay needle = true) :
    ∀ c ∈ needle, c ∈ hay := by
  induction hay with
  | nil =>
    simp only [hasSub, List.isEmpty_iff] at h
    subst h; intro c hc; cases hc
  | cons b bs ih =>
    simp only [hasSub, Bool.or_eq_true] at h
    rcases h with h | h
    · exact leadsWith_mem h
    · intro c hc; exact List.mem_cons_of_mem _ (ih h c hc)

/-- A needle with a non-whitespace character never occurs inside an
all-whitespace haystack. -/
theorem hasSub_blank {hay needle : List Char}
    (hhay : ∀ c ∈ hay, isPySpace c = true)
    (hneedle : ∃ c ∈ needle, isPySpace c = false) :
    hasSub hay needle = false := by
  rcases hneedle with ⟨c, hc, hcf⟩
  cases hsub : hasSub hay needle with
  | false => rfl
  | true => exact absurd (hhay c (hasSub_mem hsub c hc)) (by simp [hcf])

/-- `dropWhile` returns `[]` exactly when every element satisfies the
predicate. -/
theorem dropWhile_nil_iff (p : Char → Bool) (l : List Char) :
    l.dropWhile p = [] ↔ (∀ c ∈ l, p c = true) := by
  induction l with
  | nil => simp [List.dropWhile]
  | cons a t ih =>
    cases hp : p a with
    | true => simp [List.dropWhile, hp, ih]
    | false => simp [List.dropWhile, hp]

/-- `pyStrip` returns `[]` exactly when the text is all whitespace. -/
theorem pyStrip_nil_iff (l : List Char) :
    pyStrip l = [] ↔ (∀ c ∈ l, isPySpace c = true) := by
  unfold pyStrip
  rw [List.reverse_eq_nil_iff, dropWhile_nil_iff]
  constructor
  · intro h c hc
    have hc2 : c ∈ l.takeWhile isPySpace ++ l.dropWhile isPySpace := by
      rw [List.takeWhile_append_dropWhile]; exact hc
    rcases List.mem_append.mp hc2 with htk | hdk
    · exact List.mem_takeWhile_imp htk
    · exact h c (List.mem_reverse.mpr hdk)
  · intro h c hc
    have hmem : c ∈ l.dropWhile isPySpace := List.mem_reverse.mp hc
    exact h c ((List.dropWhile_sublist isPySpace).subset hmem)

/-- Whitespace characters are unchanged by `Char.toLower`. -/
theorem toLower_space {c : Char} (h : isPySpace c = true) :
    Char.toLower c = c := by
  simp only [isPySpace, Bool.or_eq_true, decide_eq_true_eq] at h
  rcases h with ((((rfl | rfl) | rfl) | rfl) | rfl) | rfl <;> decide

/-- Lowercasing keeps an all-whitespace text all-whitespace. -/
theorem pyLower_blank {s : String} (h : ∀ c ∈ s.data, isPySpace c = true) :
    ∀ c ∈ pyLower s, isPySpace c = true := by
  intro c hc
  rcases List.mem_map.mp hc with ⟨d, hd, rfl⟩
  rw [toLower_space (h d hd)]
  exact h d hd

/-- `rhe` is the floor or the floor plus one. -/
theorem rhe_cases (x : ℚ) : rhe x = ⌊x⌋ ∨ rhe x = ⌊x⌋ + 1 := by
  unfold rhe
  split_ifs <;> simp

/-- `rhe` fixes integers. -/
theorem rhe_intCast (k : ℤ) : rhe (k : ℚ) = k := by
  unfold rhe
  rw [Int.floor_intCast]
  norm_num

/-- `rhe` of a nonnegative rational is nonnegative. -/
theorem rhe_nonneg {x : ℚ} (h : 0 ≤ x) : 0 ≤ rhe x := by
  have hf : (0 : ℤ) ≤ ⌊x⌋ := Int.floor_nonneg.mpr h
  rcases rhe_cases x with he | he <;> omega

/-- `rhe` does not overshoot an integer upper bound. -/
theorem rhe_le {x : ℚ} {n : ℤ} (h : x ≤ n) : rhe x ≤ n := by
  have hfn : ⌊x⌋ ≤ n := by
    have := Int.floor_mono h
    rwa [Int.floor_intCast] at this
  unfold rhe
  split_ifs with h1 h2 h3
  · exact hfn
  · have hq : ((⌊x⌋ : ℚ)) + 1 / 2 < x := by linarith
    have hxn : (x : ℚ) ≤ (n : ℚ) := h
    have hcast : ((⌊x⌋ : ℚ)) < (n : ℚ) := by linarith
    have : ⌊x⌋ < n := by exact_mod_cast hcast
    omega
  · exact hfn
  · have hq : ((⌊x⌋ : ℚ)) + 1 / 2 ≤ x := by linarith
    have hxn : (x : ℚ) ≤ (n : ℚ) := h
    have hcast : ((⌊x⌋ : ℚ)) < (n : ℚ) := by linarith
    have : ⌊x⌋ < n := by exact_mod_cast hcast
    omega

/-- `round1` of a nonnegative rational is nonnegative. -/
theorem round1_nonneg {x : ℚ} (h : 0 ≤ x) : 0 ≤ round1 x := by
  unfold round1
  have h10 : (0 : ℚ) ≤ 10 * x := by linarith
  have hr := rhe_nonneg h10
  have : (0 : ℚ) ≤ ((rhe (10 * x) : ℤ) : ℚ) := by exact_mod_cast hr
  linarith

/-- `round1` respects the upper bound 10. -/
theorem round1_le_ten {x : ℚ} (h : x ≤ 10) : round1 x ≤ 10 := by
  unfold round1
  have h100 : 10 * x ≤ ((100 : ℤ) : ℚ) := by push_cast; linarith
  have hr := rhe_le h100
  have : ((rhe (10 * x) : ℤ) : ℚ) ≤ 100 := by exact_mod_cast hr
  linarith

/-- `round1` is idempotent: its outputs are already one-decimal values. -/
theorem round1_idem (x : ℚ) : round1 (round1 x) = round1 x := by
  have h1 : 10 * round1 x = ((rhe (10 * x) : ℤ) : ℚ) := by
    unfold round1; ring
  rw [show round1 (round1 x) = ((rhe (10 * round1 x) : ℤ) : ℚ) / 10 from rfl,
    h1, rhe_intCast]
  rfl

/-- The keyword-boost loop of `simulate_scoring` adds exactly the boosts of
the keywords present in the text. -/
theorem foldl_boost (t : List Char) (l : List (String × ℚ)) (init : ℚ) :
    l.foldl (fun s p => if hasSub t p.1.data then s + p.2 else s) init =
      init + ((l.filter (fun p => hasSub t p.1.data)).map Prod.snd).sum := by
  induction l generalizing init with
  | nil => simp
  | cons a l ih =>
    by_cases h : hasSub t a.1.data = true
    · simp only [List.foldl_cons, List.filter_cons, h, if_pos, if_true,
        List.map_cons, List.sum_cons, ih]
      ring
    · simp only [Bool.not_eq_true] at h
      simp only [List.foldl_cons, List.filter_cons, h, Bool.false_eq_true,
        if_false, ih]

/-- The maximum count among a list of (role, count) pairs. -/
def maxCount (l : List (String × Nat)) : Nat :=
  l.foldr (fun p m => max p.2 m) 0

/-- `maxCount` unfolds on cons. -/
theorem maxCount_cons (p : String × Nat) (l : List (String × Nat)) :
    maxCount (p :: l) = max p.2 (maxCount l) := rfl

/-- `List.find?` on a cons whose head satisfies the predicate. -/
theorem find?_cons_pos {α : Type} (p : α → Bool) (a : α) (l : List α)
    (h : p a = true) : (a :: l).find? p = some a :=
  List.find?_cons_of_pos l h

/-- `List.find?` on a cons whose head fails the predicate. -/
theorem find?_cons_neg {α : Type} (p : α → Bool) (a : α) (l : List α)
    (h : ¬p a = true) : (a :: l).find? p = l.find? p :=
  List.find?_cons_of_neg l h

/-- Python's first-wins `max` returns the first list entry achieving the
maximal count. -/
theorem find?_max_eq_pickBestAux (x : String × Nat) (xs : List (String × Nat)) :
    (x :: xs).find? (fun p => p.2 == maxCount (x :: xs)) =
      some (pickBestAux x xs) := by
  induction xs generalizing x with
  | nil =>
    have hm : maxCount [x] = x.2 := by simp [maxCount]
    rw [find?_cons_pos (fun p => p.2 == maxCount [x]) x [] (by simp [hm])]
    rfl
  | cons y ys ih =>
    by_cases hxy : x.2 < y.2
    · have h1 : pickBestAux x (y :: ys) = pickBestAux y ys := by
        simp [pickBestAux, hxy]
      have hy : y.2 ≤ maxCount (y :: ys) := by
        rw [maxCount_cons]; omega
      have hm : maxCount (x :: y :: ys) = maxCount (y :: ys) := by
        rw [maxCount_cons, maxCount_cons] at *; omega
      have hpx : ¬((fun p : String × Nat =>
          p.2 == maxCount (x :: y :: ys)) x) = true := by
        simp only [beq_iff_eq, hm]; omega
      rw [h1,
        find?_cons_neg (fun p => p.2 == maxCount (x :: y :: ys)) x (y :: ys) hpx]
      calc (y :: ys).find? (fun p => p.2 == maxCount (x :: y :: ys))
          = (y :: ys).find? (fun p => p.2 == maxCount (y :: ys)) := by rw [hm]
        _ = some (pickBestAux y ys) := ih y
    · have hyx : y.2 ≤ x.2 := Nat.le_of_not_lt hxy
      have h1 : pickBestAux x (y :: ys) = pickBestAux x ys := by
        simp [pickBestAux, hxy]
      have hm : maxCount (x :: y :: ys) = maxCount (x :: ys) := by
        rw [maxCount_cons, maxCount_cons, maxCount_cons]; omega
      have hx_le : x.2 ≤ maxCount (x :: ys) := by
        rw [maxCount_cons]; omega
      rw [h1]
      by_cases hx : x.2 = maxCount (x :: ys)
      · have hthis := ih x
        rw [find?_cons_pos (fun p => p.2 == maxCount (x :: ys)) x ys
          (by simp [hx])] at hthis
        have hbest : pickBestAux x ys = x := (Option.some.inj hthis).symm
        rw [hbest,
          find?_cons_pos (fun p => p.2 == maxCount (x :: y :: ys)) x (y :: ys)
            (by simp [hm, hx])]
      · have hxlt : x.2 < maxCount (x :: ys) := by omega
        have hylt : y.2 < maxCount (x :: ys) := by omega
        have hthis := ih x
        rw [find?_cons_neg (fun p => p.2 == maxCount (x :: ys)) x ys
          (by simp only [beq_iff_eq]; omega)] at hthis
        rw [find?_cons_neg (fun p => p.2 == maxCount (x :: y :: ys)) x
            (y :: ys) (by simp only [beq_iff_eq, hm]; omega),
          find?_cons_neg (fun p => p.2 == maxCount (x :: y :: ys)) y ys
            (by simp only [beq_iff_eq, hm]; omega)]
        calc ys.find? (fun p => p.2 == maxCount (x :: y :: ys))
            = ys.find? (fun p => p.2 == maxCount (x :: ys)) := by rw [hm]
          _ = some (pickBestAux x ys) := hthis

/-- `best_role_pair` is the first entry of `scoresList` with maximal count. -/
theorem best_role_pair_spec (text : List Char) :
    (scoresList text).find? (fun p => p.2 == maxCount (scoresList text)) =
      some (best_role_pair text) :=
  find?_max_eq_pickBestAux _ _

/-- `simulate_scoring` on blank input (empty or all-whitespace) returns the
raw uniform draw. -/
theorem simulate_scoring_blank {s : String} (d : ℚ)
    (h : ∀ c ∈ s.data, isPySpace c = true) : simulate_scoring s d = d := by
  unfold simulate_scoring
  have hps : pyStrip s.data = [] := (pyStrip_nil_iff _).mpr h
  simp [hps]

/-- `simulate_scoring` on non-blank input computes the rounded, clamped
base-plus-boosts-plus-noise formula. -/
theorem simulate_scoring_nonblank {s : String} (d : ℚ)
    (h : ¬(∀ c ∈ s.data, isPySpace c = true)) :
    simulate_scoring s d =
      round1 (max 0 (min 10
        (kwBoosts.foldl
          (fun sc p => if hasSub (pyLower s) p.1.data then sc + p.2 else sc)
          (min 10 (3 + ((pyWords (pyLower s)).length : ℚ) * 0.03)) + d))) := by
  unfold simulate_scoring
  have h1 : ¬s = "" := by
    intro he; subst he
    exact h (by intro c hc; cases hc)
  have h2 : ¬pyStrip s.data = [] := fun he => h ((pyStrip_nil_iff _).mp he)
  simp [h1, h2]

/-- A role's count is positive when some keyword of its list is present. -/
theorem countKws_pos {text : List Char} {kws : List String} {kw : String}
    (hmem : kw ∈ kws) (hsub : hasSub text kw.data = true) :
    0 < countKws text kws := by
  unfold countKws
  exact List.length_pos_of_mem (List.mem_filter.mpr ⟨hmem, hsub⟩)

/-- A role's count is zero when none of its keywords is present. -/
theorem countKws_zero {text : List Char} {kws : List String}
    (h : ∀ kw ∈ kws, hasSub text kw.data = false) :
    countKws text kws = 0 := by
  unfold countKws
  rw [List.length_eq_zero]
  induction kws with
  | nil => rfl
  | cons a l ih =>
    rw [List.filter_cons, if_neg (by simp [h a (List.mem_cons_self a l)])]
    exact ih fun kw hkw => h kw (List.mem_cons_of_mem a hkw)

/-- C1 (counterexample): on empty input with the in-range draw 4.25, the
Solution Scorer returns 4.25, which is within [4.0, 6.5] but is not a
one-decimal value — the claim's "rounded to 1 decimal place ... for
empty/whitespace input as well" is false. -/
theorem C1_counterexample :
    (∀ c ∈ ("" : String).data, isPySpace c = true) ∧
    (4 : ℚ) ≤ 17/4 ∧ (17/4 : ℚ) ≤ 6.5 ∧
    simulate_scoring "" (17/4) = 17/4 ∧
    round1 (simulate_scoring "" (17/4)) ≠ simulate_scoring "" (17/4) :=
  ⟨by decide, by decide, by decide, by decide, by decide⟩

/-- C1 (amended): for every input string and every draw in the specified
range, the Solution Scorer returns a value within [0.0, 10.0]; on non-blank
input the value is moreover rounded to 1 decimal place, while on
empty/whitespace input it is the raw uniform draw from [4.0, 6.5] (inside
the range but not necessarily a one-decimal value). -/
theorem C1_amended (s : String) (draw : ℚ) :
    ((∀ c ∈ s.data, isPySpace c = true) → 4 ≤ draw → draw ≤ 6.5 →
      simulate_scoring s draw = draw ∧
      0 ≤ simulate_scoring s draw ∧ simulate_scoring s draw ≤ 10) ∧
    (¬(∀ c ∈ s.data, isPySpace c = true) →
      -(0.5 : ℚ) ≤ draw → draw ≤ 0.8 →
      0 ≤ simulate_scoring s draw ∧ simulate_scoring s draw ≤ 10 ∧
      round1 (simulate_scoring s draw) = simulate_scoring s draw) := by
  constructor
  · intro hb h4 h65
    have he := simulate_scoring_blank draw hb
    refine ⟨he, by rw [he]; linarith, by rw [he]; linarith⟩
  · intro hb _ _
    rw [simulate_scoring_nonblank draw hb]
    set y : ℚ := kwBoosts.foldl
      (fun sc p => if hasSub (pyLower s) p.1.data then sc + p.2 else sc)
      (min 10 (3 + ((pyWords (pyLower s)).length : ℚ) * 0.03)) + draw with hy
    have h0 : (0 : ℚ) ≤ max 0 (min 10 y) := le_max_left 0 _
    have h10 : max 0 (min 10 y) ≤ 10 :=
      max_le (by norm_num) (min_le_left 10 y)
    exact ⟨round1_nonneg h0, round1_le_ten h10, round1_idem _⟩

/-- C1 (witness): the amended statement instantiated at a blank and at a
non-blank input. -/
theorem C1_witness :
    (simulate_scoring " " 5 = 5 ∧
      0 ≤ simulate_scoring " " 5 ∧ simulate_scoring " " 5 ≤ 10) ∧
    (0 ≤ simulate_scoring "great plan" 0 ∧
      simulate_scoring "great plan" 0 ≤ 10 ∧
      round1 (simulate_scoring "great plan" 0) =
        simulate_scoring "great plan" 0) :=
  ⟨(C1_amended " " 5).1 (by decide) (by decide) (by decide),
   (C1_amended "great plan" 0).2 (by decide) (by decide) (by decide)⟩

/-- C2: the Discount Mapper realises exactly the four threshold tiers, with
inclusive lower bounds, the 15% tier as fall-through for every rational
score, and in particular 8.9999 → 30% and 7.0 → 20%. -/
theorem C2_discount_tiers (s : ℚ) :
    ((discount_by_score s = tier40 ↔ 9 ≤ s) ∧
     (discount_by_score s = tier30 ↔ 8 ≤ s ∧ s < 9) ∧
     (discount_by_score s = tier20 ↔ 7 ≤ s ∧ s < 8) ∧
     (discount_by_score s = tier15 ↔ s < 7) ∧
     (discount_by_score s = tier40 ∨ discount_by_score s = tier30 ∨
       discount_by_score s = tier20 ∨ discount_by_score s = tier15)) ∧
    discount_by_score (8.9999 : ℚ) = tier30 ∧
    discount_by_score (7 : ℚ) = tier20 := by
  refine ⟨?_, by decide, by decide⟩
  unfold discount_by_score
  split_ifs with h1 h2 h3
  · exact ⟨iff_of_true rfl h1,
      iff_of_false (by decide) (by rintro ⟨-, hlt⟩; linarith),
      iff_of_false (by decide) (by rintro ⟨-, hlt⟩; linarith),
      iff_of_false (by decide) (by intro hlt; linarith),
      Or.inl rfl⟩
  · exact ⟨iff_of_false (by decide) h1,
      iff_of_true rfl ⟨h2, by linarith⟩,
      iff_of_false (by decide) (by rintro ⟨-, hlt⟩; linarith),
      iff_of_false (by decide) (by intro hlt; linarith),
      Or.inr (Or.inl rfl)⟩
  · exact ⟨iff_of_false (by decide) h1,
      iff_of_false (by decide) (fun h => h2 h.1),
      iff_of_true rfl ⟨h3, by linarith⟩,
      iff_of_false (by decide) (by intro hlt; linarith),
      Or.inr (Or.inr (Or.inl rfl))⟩
  · exact ⟨iff_of_false (by decide) h1,
      iff_of_false (by decide) (fun h => h2 h.1),
      iff_of_false (by decide) (fun h => h3 h.1),
      iff_of_true rfl (by linarith),
      Or.inr (Or.inr (Or.inr rfl))⟩

/-- C3: on non-blank input with noise in [-0.5, 0.8], the Solution Scorer is
exactly round-to-1-decimal of the [0, 10]-clamp of
`min(10, 3 + word_count * 0.03)` plus the sum of the boosts of the keywords
present in the lower-cased text, plus the noise. -/
theorem C3_scoring_formula (s : String) (n : ℚ)
    (hb : ¬(∀ c ∈ s.data, isPySpace c = true))
    (h1 : -(0.5 : ℚ) ≤ n) (h2 : n ≤ 0.8) :
    simulate_scoring s n =
      round1 (max 0 (min 10
        (min 10 (3 + ((pyWords (pyLower s)).length : ℚ) * 0.03) +
          ((kwBoosts.filter (fun p => hasSub (pyLower s) p.1.data)).map
            Prod.snd).sum + n))) := by
  rw [simulate_scoring_nonblank n hb, foldl_boost]

/-- C3 (witness): the formula instantiated at a concrete solution text. -/
theorem C3_witness :
    (¬(∀ c ∈ ("cross validation plan" : String).data, isPySpace c = true)) ∧
    -(0.5 : ℚ) ≤ 0 ∧ (0 : ℚ) ≤ 0.8 ∧
    simulate_scoring "cross validation plan" 0 =
      round1 (max 0 (min 10
        (min 10 (3 + ((pyWords (pyLower "cross validation plan")).length : ℚ)
            * 0.03) +
          ((kwBoosts.filter
            (fun p => hasSub (pyLower "cross validation plan") p.1.data)).map
            Prod.snd).sum + 0))) :=
  ⟨by decide, by decide, by decide,
   C3_scoring_formula "cross validation plan" 0 (by decide) (by decide)
     (by decide)⟩

/-- C6: every blank solution text with a draw in [4.0, 6.5] scores exactly
that draw, hence within [4.0, 6.5], and the Discount Mapper places it in the
15% participant tier. -/
theorem C6_blank_scoring (s : String) (d : ℚ)
    (hb : ∀ c ∈ s.data, isPySpace c = true)
    (h1 : 4 ≤ d) (h2 : d ≤ 6.5) :
    simulate_scoring s d = d ∧
    4 ≤ simulate_scoring s d ∧ simulate_scoring s d ≤ 6.5 ∧
    discount_by_score (simulate_scoring s d) = tier15 := by
  have he := simulate_scoring_blank d hb
  refine ⟨he, by rw [he]; exact h1, by rw [he]; exact h2, ?_⟩
  rw [he]
  unfold discount_by_score
  rw [if_neg (by intro hc; nlinarith), if_neg (by intro hc; nlinarith),
    if_neg (by intro hc; nlinarith)]

/-- C6 (witness): the blank-scoring statement at the one-space text and
draw 5. -/
theorem C6_witness :
    simulate_scoring " " 5 = 5 ∧
    4 ≤ simulate_scoring " " 5 ∧ simulate_scoring " " 5 ≤ 6.5 ∧
    discount_by_score (simulate_scoring " " 5) = tier15 :=
  C6_blank_scoring " " 5 (by decide) (by decide) (by decide)

/-- C5: the sample resume line yields role Software Engineer, 6 years of
experience, Senior seniority, and skills containing python, react and
docker. -/
theorem C5_sample_resume :
    (extract_profile_from_resume
      "Experienced senior python developer with react and docker skills").map
        Profile.role = some "Software Engineer" ∧
    (extract_profile_from_resume
      "Experienced senior python developer with react and docker skills").map
        Profile.experience_years = some 6 ∧
    (extract_profile_from_resume
      "Experienced senior python developer with react and docker skills").map
        Profile.seniority = some "Senior" ∧
    (extract_profile_from_resume
      "Experienced senior python developer with react and docker skills").map
        Profile.skills = some ["docker", "python", "react"] ∧
    "python" ∈ (["docker", "python", "react"] : List String) ∧
    "react" ∈ (["docker", "python", "react"] : List String) ∧
    "docker" ∈ (["docker", "python", "react"] : List String) :=
  ⟨by decide, by decide, by decide, by decide, by decide, by decide, by decide⟩

/-- C7: for a profile with non-empty skills the nugget headline joins exactly
the first five skills with commas; with empty skills it shows
"Skills not listed". -/
theorem C7_nugget_headline (p : Profile) (topic : String) :
    (p.skills ≠ [] →
      ∃ ng, generate_personalized_nuggets (some p) topic = some ng ∧
        ng.headline = p.role ++ " • " ++ p.seniority ++ " • " ++
          String.intercalate ", " (p.skills.take 5) ∧
        (p.skills.take 5).length ≤ 5) ∧
    (p.skills = [] →
      ∃ ng, generate_personalized_nuggets (some p) topic = some ng ∧
        ng.headline = p.role ++ " • " ++ p.seniority ++ " • " ++
          "Skills not listed") := by
  constructor
  · intro hne
    have htk : (p.skills.take 5).isEmpty = false := by
      cases hsk : p.skills with
      | nil => exact absurd hsk hne
      | cons a l => simp [List.take]
    refine ⟨_, rfl, ?_, ?_⟩
    · by_cases hda : p.role = "Data Analyst" <;> simp [hda, htk]
    · rw [List.length_take]; omega
  · intro hnil
    refine ⟨_, rfl, ?_⟩
    by_cases hda : p.role = "Data Analyst" <;> simp [hda, hnil]

/-- C7 (witness): the headline statement at a skilled and at a skill-less
profile. -/
theorem C7_witness :
    (∃ ng, generate_personalized_nuggets
        (some ⟨"Software Engineer", 6, ["docker", "python", "react"],
          "Senior", "", none⟩) "AI & Machine Learning" = some ng ∧
        ng.headline = "Software Engineer" ++ " • " ++ "Senior" ++ " • " ++
          String.intercalate ", "
            ((["docker", "python", "react"] : List String).take 5) ∧
        ((["docker", "python", "react"] : List String).take 5).length ≤ 5) ∧
    (∃ ng, generate_personalized_nuggets
        (some ⟨"Data Analyst", 1, [], "Junior", "", none⟩)
          "AI & Machine Learning" = some ng ∧
        ng.headline = "Data Analyst" ++ " • " ++ "Junior" ++ " • " ++
          "Skills not listed") :=
  ⟨(C7_nugget_headline
      ⟨"Software Engineer", 6, ["docker", "python", "react"], "Senior", "",
        none⟩ "AI & Machine Learning").1 (by decide),
   (C7_nugget_headline ⟨"Data Analyst", 1, [], "Junior", "", none⟩
      "AI & Machine Learning").2 rfl⟩

/-- The 24-hours template never coincides with the 2-hours template: their
subjects start with different characters. -/
theorem twentyFour_ne_twoHours (p : Profile) (t : String) :
    twentyFourHoursLaterTemplate p t ≠ twoHoursPostExitTemplate p t := by
  obtain ⟨tl⟩ := t
  intro h
  have hs := congrArg (fun e : EmailTemplate => e.subject.data.head?) h
  have hY : (fun e : EmailTemplate => e.subject.data.head?)
      (twentyFourHoursLaterTemplate p ⟨tl⟩) = some 'Y' := rfl
  have hT : (fun e : EmailTemplate => e.subject.data.head?)
      (twoHoursPostExitTemplate p ⟨tl⟩) = some 'T' := rfl
  rw [hY, hT] at hs
  exact absurd (Option.some.inj hs) (by decide)

/-- The final-reminder template never coincides with the 2-hours template. -/
theorem final_ne_twoHours (p : Profile) (t : String) :
    finalReminderTemplate p t ≠ twoHoursPostExitTemplate p t := by
  obtain ⟨tl⟩ := t
  intro h
  have hs := congrArg (fun e : EmailTemplate => e.subject.data.head?) h
  have hA : (fun e : EmailTemplate => e.subject.data.head?)
      (finalReminderTemplate p ⟨tl⟩) = some 'A' := rfl
  have hT : (fun e : EmailTemplate => e.subject.data.head?)
      (twoHoursPostExitTemplate p ⟨tl⟩) = some 'T' := rfl
  rw [hA, hT] at hs
  exact absurd (Option.some.inj hs) (by decide)

/-- The final-reminder template never coincides with the 24-hours template. -/
theorem final_ne_twentyFour (p : Profile) (t : String) :
    finalReminderTemplate p t ≠ twentyFourHoursLaterTemplate p t := by
  intro h
  have hs := congrArg (fun e : EmailTemplate => e.subject.data.head?) h
  have hA : (fun e : EmailTemplate => e.subject.data.head?)
      (finalReminderTemplate p t) = some 'A' := rfl
  have hY : (fun e : EmailTemplate => e.subject.data.head?)
      (twentyFourHoursLaterTemplate p t) = some 'Y' := rfl
  rw [hA, hY] at hs
  exact absurd (Option.some.inj hs) (by decide)

/-- C8: the Email Generator selects the 2-hours template iff `email_type` is
exactly "2 Hours Post-Exit", the 24-hours template iff it is exactly
"24 Hours Later", and every other string — including
"Final Reminder (7 days)", the empty string and a case near-miss — silently
yields the final-reminder template. -/
theorem C8_email_selection (p : Profile) (topic : String) (email_type : String) :
    (generate_personalized_email p topic email_type =
        twoHoursPostExitTemplate p topic ↔
      email_type = "2 Hours Post-Exit") ∧
    (generate_personalized_email p topic email_type =
        twentyFourHoursLaterTemplate p topic ↔
      email_type = "24 Hours Later") ∧
    (email_type ≠ "2 Hours Post-Exit" → email_type ≠ "24 Hours Later" →
      generate_personalized_email p topic email_type =
        finalReminderTemplate p topic) ∧
    generate_personalized_email p topic "Final Reminder (7 days)" =
      finalReminderTemplate p topic ∧
    generate_personalized_email p topic "" = finalReminderTemplate p topic ∧
    generate_personalized_email p topic "24 hours later" =
      finalReminderTemplate p topic := by
  have hcatch : ∀ et : String, et ≠ "2 Hours Post-Exit" →
      et ≠ "24 Hours Later" →
      generate_personalized_email p topic et = finalReminderTemplate p topic := by
    intro et h1 h2
    unfold generate_personalized_email
    rw [if_neg h1, if_neg h2]
  refine ⟨?_, ?_, hcatch email_type, hcatch _ (by decide) (by decide),
    hcatch _ (by decide) (by decide), hcatch _ (by decide) (by decide)⟩
  · constructor
    · intro h
      by_contra hne
      by_cases h24 : email_type = "24 Hours Later"
      · subst h24
        unfold generate_personalized_email at h
        rw [if_neg hne, if_pos rfl] at h
        exact twentyFour_ne_twoHours p topic h
      · rw [hcatch email_type hne h24] at h
        exact final_ne_twoHours p topic h
    · intro h
      subst h
      unfold generate_personalized_email
      rw [if_pos rfl]
  · constructor
    · intro h
      by_contra hne
      by_cases h2h : email_type = "2 Hours Post-Exit"
      · subst h2h
        unfold generate_personalized_email at h
        rw [if_pos rfl] at h
        exact twentyFour_ne_twoHours p topic h.symm
      · rw [hcatch email_type h2h hne] at h
        exact final_ne_twentyFour p topic h
    · intro h
      subst h
      unfold generate_personalized_email
      rw [if_neg (by decide), if_pos rfl]

/-- C8 (witness): the selection statement instantiated at a concrete profile,
topic and email type. -/
theorem C8_witness :
    (generate_personalized_email
        ⟨"Data Analyst", 1, [], "Junior", "", none⟩ "AI" "Final Reminder (7 days)" =
        twoHoursPostExitTemplate ⟨"Data Analyst", 1, [], "Junior", "", none⟩ "AI" ↔
      ("Final Reminder (7 days)" : String) = "2 Hours Post-Exit") ∧
    (generate_personalized_email
        ⟨"Data Analyst", 1, [], "Junior", "", none⟩ "AI" "Final Reminder (7 days)" =
        twentyFourHoursLaterTemplate ⟨"Data Analyst", 1, [], "Junior", "", none⟩ "AI" ↔
      ("Final Reminder (7 days)" : String) = "24 Hours Later") ∧
    (("Final Reminder (7 days)" : String) ≠ "2 Hours Post-Exit" →
      ("Final Reminder (7 days)" : String) ≠ "24 Hours Later" →
      generate_personalized_email
        ⟨"Data Analyst", 1, [], "Junior", "", none⟩ "AI" "Final Reminder (7 days)" =
        finalReminderTemplate ⟨"Data Analyst", 1, [], "Junior", "", none⟩ "AI") ∧
    generate_personalized_email
        ⟨"Data Analyst", 1, [], "Junior", "", none⟩ "AI" "Final Reminder (7 days)" =
      finalReminderTemplate ⟨"Data Analyst", 1, [], "Junior", "", none⟩ "AI" ∧
    generate_personalized_email
        ⟨"Data Analyst", 1, [], "Junior", "", none⟩ "AI" "" =
      finalReminderTemplate ⟨"Data Analyst", 1, [], "Junior", "", none⟩ "AI" ∧
    generate_personalized_email
        ⟨"Data Analyst", 1, [], "Junior", "", none⟩ "AI" "24 hours later" =
      finalReminderTemplate ⟨"Data Analyst", 1, [], "Junior", "", none⟩ "AI" :=
  C8_email_selection ⟨"Data Analyst", 1, [], "Junior", "", none⟩ "AI"
    "Final Reminder (7 days)"

/-- No nonempty keyword occurs in the empty text. -/
theorem hasSub_nil (kw : String) (h : kw ≠ "") : hasSub [] kw.data = false := by
  obtain ⟨l⟩ := kw
  cases l with
  | nil => exact absurd rfl h
  | cons a t => rfl

/-- When the selected count is nonzero the extractor reports the selected
role. -/
theorem extract_role_eq (s : String) (hne : s ≠ "")
    (hbp : ¬(best_role_pair (pyLower s)).2 = 0) :
    (extract_profile_from_resume s).map Profile.role =
      some (best_role_pair (pyLower s)).1 := by
  unfold extract_profile_from_resume
  rw [if_neg hne]
  simp [hbp]

/-- When the selected count is zero the extractor defaults to Data Analyst. -/
theorem extract_role_default (s : String) (hne : s ≠ "")
    (hbp : (best_role_pair (pyLower s)).2 = 0) :
    (extract_profile_from_resume s).map Profile.role = some "Data Analyst" := by
  unfold extract_profile_from_resume
  rw [if_neg hne]
  simp [hbp]

/-- C4 (counterexample): the empty resume contains zero keywords of every
role's list, yet the extractor returns the no-profile sentinel rather than a
Data Analyst profile — the claim's second universal fails at the empty
string. -/
theorem C4_counterexample :
    (∀ qr ∈ keywords, ∀ kw ∈ qr.2, hasSub (pyLower "") kw.data = false) ∧
    extract_profile_from_resume "" = none :=
  ⟨by decide, by decide⟩

/-- C4 (amended): a resume matching keywords of exactly one role yields that
role; a non-empty resume matching no keyword at all yields Data Analyst
(the empty resume instead yields the no-profile sentinel). -/
theorem C4_amended (s : String) :
    (∀ pr ∈ keywords,
      (∃ kw ∈ pr.2, hasSub (pyLower s) kw.data = true) →
      (∀ qr ∈ keywords, qr.1 ≠ pr.1 →
        ∀ kw ∈ qr.2, hasSub (pyLower s) kw.data = false) →
      (extract_profile_from_resume s).map Profile.role = some pr.1) ∧
    (s ≠ "" →
      (∀ qr ∈ keywords, ∀ kw ∈ qr.2, hasSub (pyLower s) kw.data = false) →
      (extract_profile_from_resume s).map Profile.role =
        some "Data Analyst") := by
  constructor
  · intro pr hmem h1 h2
    simp only [keywords, List.mem_cons, List.not_mem_nil, or_false] at hmem
    rcases hmem with rfl | rfl | rfl | rfl | rfl
    · rcases h1 with ⟨kw, hkwm, hkws⟩
      have hkne : kw ≠ "" := (by decide : ∀ k ∈ kwSoftwareEngineer, k ≠ "") kw hkwm
      have hsne : s ≠ "" := by
        intro he; subst he
        rw [show pyLower "" = [] from rfl, hasSub_nil kw hkne] at hkws
        exact Bool.noConfusion hkws
      have hpos : 0 < countKws (pyLower s) kwSoftwareEngineer :=
        countKws_pos hkwm hkws
      have hz2 : countKws (pyLower s) kwDataAnalyst = 0 :=
        countKws_zero (h2 ("Data Analyst", kwDataAnalyst) (by simp [keywords])
          (by decide))
      have hz3 : countKws (pyLower s) kwDataScientist = 0 :=
        countKws_zero (h2 ("Data Scientist", kwDataScientist)
          (by simp [keywords]) (by decide))
      have hz4 : countKws (pyLower s) kwProductManager = 0 :=
        countKws_zero (h2 ("Product Manager", kwProductManager)
          (by simp [keywords]) (by decide))
      have hz5 : countKws (pyLower s) kwDevOpsEngineer = 0 :=
        countKws_zero (h2 ("DevOps Engineer", kwDevOpsEngineer)
          (by simp [keywords]) (by decide))
      have hsc : scoresList (pyLower s) =
          [("Software Engineer", countKws (pyLower s) kwSoftwareEngineer),
           ("Data Analyst", 0), ("Data Scientist", 0), ("Product Manager", 0),
           ("DevOps Engineer", 0)] := by
        simp [scoresList, keywords, hz2, hz3, hz4, hz5]
      have hbp : best_role_pair (pyLower s) =
          ("Software Engineer", countKws (pyLower s) kwSoftwareEngineer) := by
        unfold best_role_pair
        rw [hsc]
        simp [pickBestAux, Nat.not_lt_zero]
      rw [extract_role_eq s hsne (by rw [hbp]; omega), hbp]
    · rcases h1 with ⟨kw, hkwm, hkws⟩
      have hkne : kw ≠ "" := (by decide : ∀ k ∈ kwDataAnalyst, k ≠ "") kw hkwm
      have hsne : s ≠ "" := by
        intro he; subst he
        rw [show pyLower "" = [] from rfl, hasSub_nil kw hkne] at hkws
        exact Bool.noConfusion hkws
      have hpos : 0 < countKws (pyLower s) kwDataAnalyst :=
        countKws_pos hkwm hkws
      have hz1 : countKws (pyLower s) kwSoftwareEngineer = 0 :=
        countKws_zero (h2 ("Software Engineer", kwSoftwareEngineer)
          (by simp [keywords]) (by decide))
      have hz3 : countKws (pyLower s) kwDataScientist = 0 :=
        countKws_zero (h2 ("Data Scientist", kwDataScientist)
          (by simp [keywords]) (by decide))
      have hz4 : countKws (pyLower s) kwProductManager = 0 :=
        countKws_zero (h2 ("Product Manager", kwProductManager)
          (by simp [keywords]) (by decide))
      have hz5 : countKws (pyLower s) kwDevOpsEngineer = 0 :=
        countKws_zero (h2 ("DevOps Engineer", kwDevOpsEngineer)
          (by simp [keywords]) (by decide))
      have hsc : scoresList (pyLower s) =
          [("Software Engineer", 0),
           ("Data Analyst", countKws (pyLower s) kwDataAnalyst),
           ("Data Scientist", 0), ("Product Manager", 0),
           ("DevOps Engineer", 0)] := by
        simp [scoresList, keywords, hz1, hz3, hz4, hz5]
      have hbp : best_role_pair (pyLower s) =
          ("Data Analyst", countKws (pyLower s) kwDataAnalyst) := by
        unfold best_role_pair
        rw [hsc]
        simp [pickBestAux, hpos, Nat.not_lt_zero]
      rw [extract_role_eq s hsne (by rw [hbp]; omega), hbp]
    · rcases h1 with ⟨kw, hkwm, hkws⟩
      have hkne : kw ≠ "" := (by decide : ∀ k ∈ kwDataScientist, k ≠ "") kw hkwm
      have hsne : s ≠ "" := by
        intro he; subst he
        rw [show pyLower "" = [] from rfl, hasSub_nil kw hkne] at hkws
        exact Bool.noConfusion hkws
      have hpos : 0 < countKws (pyLower s) kwDataScientist :=
        countKws_pos hkwm hkws
      have hz1 : countKws (pyLower s) kwSoftwareEngineer = 0 :=
        countKws_zero (h2 ("Software Engineer", kwSoftwareEngineer)
          (by simp [keywords]) (by decide))
      have hz2 : countKws (pyLower s) kwDataAnalyst = 0 :=
        countKws_zero (h2 ("Data Analyst", kwDataAnalyst) (by simp [keywords])
          (by decide))
      have hz4 : countKws (pyLower s) kwProductManager = 0 :=
        countKws_zero (h2 ("Product Manager", kwProductManager)
          (by simp [keywords]) (by decide))
      have hz5 : countKws (pyLower s) kwDevOpsEngineer = 0 :=
        countKws_zero (h2 ("DevOps Engineer", kwDevOpsEngineer)
          (by simp [keywords]) (by decide))
      have hsc : scoresList (pyLower s) =
          [("Software Engineer", 0), ("Data Analyst", 0),
           ("Data Scientist", countKws (pyLower s) kwDataScientist),
           ("Product Manager", 0), ("DevOps Engineer", 0)] := by
        simp [scoresList, keywords, hz1, hz2, hz4, hz5]
      have hbp : best_role_pair (pyLower s) =
          ("Data Scientist", countKws (pyLower s) kwDataScientist) := by
        unfold best_role_pair
        rw [hsc]
        simp [pickBestAux, hpos, Nat.not_lt_zero]
      rw [extract_role_eq s hsne (by rw [hbp]; omega), hbp]
    · rcases h1 with ⟨kw, hkwm, hkws⟩
      have hkne : kw ≠ "" := (by decide : ∀ k ∈ kwProductManager, k ≠ "") kw hkwm
      have hsne : s ≠ "" := by
        intro he; subst he
        rw [show pyLower "" = [] from rfl, hasSub_nil kw hkne] at hkws
        exact Bool.noConfusion hkws
      have hpos : 0 < countKws (pyLower s) kwProductManager :=
        countKws_pos hkwm hkws
      have hz1 : countKws (pyLower s) kwSoftwareEngineer = 0 :=
        countKws_zero (h2 ("Software Engineer", kwSoftwareEngineer)
          (by simp [keywords]) (by decide))
      have hz2 : countKws (pyLower s) kwDataAnalyst = 0 :=
        countKws_zero (h2 ("Data Analyst", kwDataAnalyst) (by simp [keywords])
          (by decide))
      have hz3 : countKws (pyLower s) kwDataScientist = 0 :=
        countKws_zero (h2 ("Data Scientist", kwDataScientist)
          (by simp [keywords]) (by decide))
      have hz5 : countKws (pyLower s) kwDevOpsEngineer = 0 :=
        countKws_zero (h2 ("DevOps Engineer", kwDevOpsEngineer)
          (by simp [keywords]) (by decide))
      have hsc : scoresList (pyLower s) =
          [("Software Engineer", 0), ("Data Analyst", 0), ("Data Scientist", 0),
           ("Product Manager", countKws (pyLower s) kwProductManager),
           ("DevOps Engineer", 0)] := by
        simp [scoresList, keywords, hz1, hz2, hz3, hz5]
      have hbp : best_role_pair (pyLower s) =
          ("Product Manager", countKws (pyLower s) kwProductManager) := by
        unfold best_role_pair
        rw [hsc]
        simp [pickBestAux, hpos, Nat.not_lt_zero]
      rw [extract_role_eq s hsne (by rw [hbp]; omega), hbp]
    · rcases h1 with ⟨kw, hkwm, hkws⟩
      have hkne : kw ≠ "" := (by decide : ∀ k ∈ kwDevOpsEngineer, k ≠ "") kw hkwm
      have hsne : s ≠ "" := by
        intro he; subst he
        rw [show pyLower "" = [] from rfl, hasSub_nil kw hkne] at hkws
        exact Bool.noConfusion hkws
      have hpos : 0 < countKws (pyLower s) kwDevOpsEngineer :=
        countKws_pos hkwm hkws
      have hz1 : countKws (pyLower s) kwSoftwareEngineer = 0 :=
        countKws_zero (h2 ("Software Engineer", kwSoftwareEngineer)
          (by simp [keywords]) (by decide))
      have hz2 : countKws (pyLower s) kwDataAnalyst = 0 :=
        countKws_zero (h2 ("Data Analyst", kwDataAnalyst) (by simp [keywords])
          (by decide))
      have hz3 : countKws (pyLower s) kwDataScientist = 0 :=
        countKws_zero (h2 ("Data Scientist", kwDataScientist)
          (by simp [keywords]) (by decide))
      have hz4 : countKws (pyLower s) kwProductManager = 0 :=
        countKws_zero (h2 ("Product Manager", kwProductManager)
          (by simp [keywords]) (by decide))
      have hsc : scoresList (pyLower s) =
          [("Software Engineer", 0), ("Data Analyst", 0), ("Data Scientist", 0),
           ("Product Manager", 0),
           ("DevOps Engineer", countKws (pyLower s) kwDevOpsEngineer)] := by
        simp [scoresList, keywords, hz1, hz2, hz3, hz4]
      have hbp : best_role_pair (pyLower s) =
          ("DevOps Engineer", countKws (pyLower s) kwDevOpsEngineer) := by
        unfold best_role_pair
        rw [hsc]
        simp [pickBestAux, hpos, Nat.not_lt_zero]
      rw [extract_role_eq s hsne (by rw [hbp]; omega), hbp]
  · intro hsne h0
    have hz1 : countKws (pyLower s) kwSoftwareEngineer = 0 :=
      countKws_zero (h0 ("Software Engineer", kwSoftwareEngineer)
        (by simp [keywords]))
    have hz2 : countKws (pyLower s) kwDataAnalyst = 0 :=
      countKws_zero (h0 ("Data Analyst", kwDataAnalyst) (by simp [keywords]))
    have hz3 : countKws (pyLower s) kwDataScientist = 0 :=
      countKws_zero (h0 ("Data Scientist", kwDataScientist)
        (by simp [keywords]))
    have hz4 : countKws (pyLower s) kwProductManager = 0 :=
      countKws_zero (h0 ("Product Manager", kwProductManager)
        (by simp [keywords]))
    have hz5 : countKws (pyLower s) kwDevOpsEngineer = 0 :=
      countKws_zero (h0 ("DevOps Engineer", kwDevOpsEngineer)
        (by simp [keywords]))
    have hsc : scoresList (pyLower s) =
        [("Software Engineer", 0), ("Data Analyst", 0), ("Data Scientist", 0),
         ("Product Manager", 0), ("DevOps Engineer", 0)] := by
      simp [scoresList, keywords, hz1, hz2, hz3, hz4, hz5]
    have hbp : best_role_pair (pyLower s) = ("Software Engineer", 0) := by
      unfold best_role_pair
      rw [hsc]
      simp [pickBestAux]
    exact extract_role_default s hsne (by rw [hbp])

/-- C4 (witness): the amended statement at a DevOps-only resume and at a
keyword-free resume. -/
theorem C4_witness :
    (extract_profile_from_resume "terraform").map Profile.role =
      some "DevOps Engineer" ∧
    (extract_profile_from_resume "hello world").map Profile.role =
      some "Data Analyst" :=
  ⟨by
    have h := (C4_amended "terraform").1 ("DevOps Engineer", kwDevOpsEngineer)
      (by simp [keywords]) (by decide) (by decide)
    exact h,
   (C4_amended "hello world").2 (by decide) (by decide)⟩

/-- C9: with a positive best count, the extractor returns the first role in
declaration order achieving the maximal count; in particular "pandas" ties
Data Analyst with Data Scientist at count 1 and Data Analyst wins. -/
theorem C9_tie_break_first_declared :
    (∀ s : String, s ≠ "" → 0 < maxCount (scoresList (pyLower s)) →
      (extract_profile_from_resume s).map Profile.role =
        ((scoresList (pyLower s)).find?
          (fun pr => pr.2 == maxCount (scoresList (pyLower s)))).map
          Prod.fst) ∧
    scoresList (pyLower "pandas") =
      [("Software Engineer", 0), ("Data Analyst", 1), ("Data Scientist", 1),
       ("Product Manager", 0), ("DevOps Engineer", 0)] ∧
    (extract_profile_from_resume "pandas").map Profile.role =
      some "Data Analyst" := by
  refine ⟨?_, by decide, by decide⟩
  intro s hne hpos
  have hspec := best_role_pair_spec (pyLower s)
  rw [hspec]
  have hpred := List.find?_some hspec
  have hbp2 : (best_role_pair (pyLower s)).2 =
      maxCount (scoresList (pyLower s)) := by
    simpa using hpred
  rw [extract_role_eq s hne (by rw [hbp2]; omega)]
  simp

/-- C9 (witness): the tie-break statement instantiated at "pandas". -/
theorem C9_witness :
    (extract_profile_from_resume "pandas").map Profile.role =
      ((scoresList (pyLower "pandas")).find?
        (fun pr => pr.2 == maxCount (scoresList (pyLower "pandas")))).map
        Prod.fst :=
  C9_tie_break_first_declared.1 "pandas" (by decide) (by decide)

/-- A filter by keyword presence is empty when no keyword is present. -/
theorem filter_hasSub_nil {text : List Char} (l : List String)
    (h : ∀ kw ∈ l, hasSub text kw.data = false) :
    l.filter (fun kw => hasSub text kw.data) = [] := by
  induction l with
  | nil => rfl
  | cons a t ih =>
    rw [List.filter_cons, if_neg (by simp [h a (List.mem_cons_self a t)])]
    exact ih fun kw hkw => h kw (List.mem_cons_of_mem a hkw)

/-- C10: only the empty resume yields the no-profile sentinel; a
whitespace-only resume is treated as non-empty and produces a Data Analyst /
1 year / Junior profile with no skills — while the Solution Scorer strips
whitespace and treats such input as empty, returning the raw draw. -/
theorem C10_whitespace_contrast (s : String) (d : ℚ) :
    (extract_profile_from_resume s = none ↔ s = "") ∧
    (s ≠ "" → (∀ c ∈ s.data, isPySpace c = true) →
      (extract_profile_from_resume s).map Profile.role =
        some "Data Analyst" ∧
      (extract_profile_from_resume s).map Profile.experience_years = some 1 ∧
      (extract_profile_from_resume s).map Profile.seniority = some "Junior" ∧
      (extract_profile_from_resume s).map Profile.skills = some []) ∧
    ((∀ c ∈ s.data, isPySpace c = true) → simulate_scoring s d = d) := by
  refine ⟨?_, ?_, fun hb => simulate_scoring_blank d hb⟩
  · constructor
    · intro h
      by_cases hs : s = ""
      · exact hs
      · exfalso
        unfold extract_profile_from_resume at h
        rw [if_neg hs] at h
        exact Option.noConfusion h
    · rintro rfl; rfl
  · intro hne hsp
    have htext : ∀ c ∈ pyLower s, isPySpace c = true := pyLower_blank hsp
    have hzero : ∀ kws : List String,
        (∀ kw ∈ kws, ∃ c ∈ kw.data, isPySpace c = false) →
        countKws (pyLower s) kws = 0 := fun kws hk =>
      countKws_zero fun kw hkw => hasSub_blank htext (hk kw hkw)
    have hz1 := hzero kwSoftwareEngineer (by decide)
    have hz2 := hzero kwDataAnalyst (by decide)
    have hz3 := hzero kwDataScientist (by decide)
    have hz4 := hzero kwProductManager (by decide)
    have hz5 := hzero kwDevOpsEngineer (by decide)
    have hsen : hasSub (pyLower s) "senior".data = false :=
      hasSub_blank htext (by decide)
    have h5p : hasSub (pyLower s) "5+".data = false :=
      hasSub_blank htext (by decide)
    have h5y : hasSub (pyLower s) "5 years".data = false :=
      hasSub_blank htext (by decide)
    have hld : hasSub (pyLower s) "lead".data = false :=
      hasSub_blank htext (by decide)
    have h3p : hasSub (pyLower s) "3+".data = false :=
      hasSub_blank htext (by decide)
    have h3y : hasSub (pyLower s) "3 years".data = false :=
      hasSub_blank htext (by decide)
    have hjr : hasSub (pyLower s) "junior".data = false :=
      hasSub_blank htext (by decide)
    have h1p : hasSub (pyLower s) "1+".data = false :=
      hasSub_blank htext (by decide)
    have h1y : hasSub (pyLower s) "1 year".data = false :=
      hasSub_blank htext (by decide)
    have hsk : ((keywords.map Prod.snd).flatten.filter
        (fun kw => hasSub (pyLower s) kw.data)) = [] := by
      apply filter_hasSub_nil
      intro kw hkw
      exact hasSub_blank htext
        ((by decide : ∀ kw ∈ (keywords.map Prod.snd).flatten,
          ∃ c ∈ kw.data, isPySpace c = false) kw hkw)
    have hsc : scoresList (pyLower s) =
        [("Software Engineer", 0), ("Data Analyst", 0), ("Data Scientist", 0),
         ("Product Manager", 0), ("DevOps Engineer", 0)] := by
      simp [scoresList, keywords, hz1, hz2, hz3, hz4, hz5]
    have hbp : best_role_pair (pyLower s) = ("Software Engineer", 0) := by
      unfold best_role_pair
      rw [hsc]
      simp [pickBestAux]
    unfold extract_profile_from_resume
    rw [if_neg hne]
    simp [hbp, hsen, h5p, h5y, hld, h3p, h3y, hjr, h1p, h1y, hsk, sortStrs]

/-- C10 (witness): the contrast statement at the one-space resume text. -/
theorem C10_witness :
    (extract_profile_from_resume " ").map Profile.role =
      some "Data Analyst" ∧
    (extract_profile_from_resume " ").map Profile.experience_years = some 1 ∧
    (extract_profile_from_resume " ").map Profile.seniority = some "Junior" ∧
    (extract_profile_from_resume " ").map Profile.skills = some [] ∧
    simulate_scoring " " (5 : ℚ) = 5 :=
  ⟨((C10_whitespace_contrast " " 5).2.1 (by decide) (by decide)).1,
   ((C10_whitespace_contrast " " 5).2.1 (by decide) (by decide)).2.1,
   ((C10_whitespace_contrast " " 5).2.1 (by decide) (by decide)).2.2.1,
   ((C10_whitespace_contrast " " 5).2.1 (by decide) (by decide)).2.2.2,
   (C10_whitespace_contrast " " 5).2.2 (by decide)⟩
